import Mathlib

/-!
Shallow embedding of the Telegram Bot API proxy worker shipped in
`src/scripts/railway-deploy.js` (the worker source embedded in that script:
`handleRequest`, `corsHeaders`, `filterHeaders`).

Modelling conventions:
* Strings are Lean `String`s; the JS string operations used by the worker
  (`startsWith`, `split(',')`, `trim`, `toLowerCase`, the anchored regex
  `^\/bot([^/]+)`) are embedded as character-list functions so that they
  evaluate in the kernel.
* A JS `Headers` object is a list of name/value pairs; `Headers.set` is
  case-insensitive replace-or-append (`headersSet` below).  JS `Headers`
  iteration never yields two entries whose names agree up to case, so
  theorems about header filtering assume that invariant of the inbound list.
* `fetch` is the only fallible operation; it is passed in as a function
  `upstream : OutboundRequest → Except String HttpResponse`, where the
  `.error` payload is the thrown error's `message`.
* `handleRequest` returns the produced response together with the list of
  upstream requests actually executed, in order, so that "the upstream is
  not contacted" and "the failure is not retried" are statable.
-/

/-- JS `String.prototype.startsWith` (also the anchor of `/^\/bot/`):
character-level prefix test. -/
def strStartsWith (s p : String) : Bool := p.data.isPrefixOf s.data

/-- Whitespace characters removed by JS `String.prototype.trim`
(ASCII subset; the worker's tokens are ASCII). -/
def jsWhitespace (c : Char) : Bool :=
  c = ' ' || c = '\t' || c = '\n' || c = '\r' || c = '\x0b' || c = '\x0c'

/-- Strip leading and trailing JS whitespace from a character list. -/
def trimChars (cs : List Char) : List Char :=
  ((cs.dropWhile jsWhitespace).reverse.dropWhile jsWhitespace).reverse

/-- JS `String.prototype.trim`. -/
def jsTrim (s : String) : String := ⟨trimChars s.data⟩

/-- JS `String.prototype.split(',')`: splitting the empty string yields one
empty group, and consecutive separators yield empty groups. -/
def splitOnComma : List Char → List (List Char)
  | [] => [[]]
  | c :: cs =>
    let rest := splitOnComma cs
    if c = ',' then [] :: rest
    else
      match rest with
      | [] => [[c]]
      | g :: gs => (c :: g) :: gs

/-- `env.ALLOWED_TOKENS.split(',').map(t => t.trim())` from the allowlist
branch of `handleRequest`. -/
def allowedTokens (s : String) : List String :=
  (splitOnComma s.data).map (fun g => jsTrim ⟨g⟩)

/-- `url.pathname.match(/^\/bot([^/]+)/)`: the match succeeds iff the path
starts with `/bot` followed by at least one character that is not `/`; the
captured token is the maximal run of non-`/` characters after `/bot`. -/
def tokenMatch (pathname : String) : Option String :=
  if strStartsWith pathname "/bot" then
    let seg := (pathname.data.drop 4).takeWhile (fun c => c ≠ '/')
    if seg.isEmpty then none else some ⟨seg⟩
  else none

/-- JS `String.prototype.toLowerCase` as used on header names (header names
are ASCII). -/
def lowerName (s : String) : String := ⟨s.data.map Char.toLower⟩

/-- JS `Headers.prototype.set`: header names compare case-insensitively and
any existing entry with the same name is replaced by the new value. -/
def headersSet (hs : List (String × String)) (k v : String) :
    List (String × String) :=
  hs.filter (fun kv => lowerName kv.1 != lowerName k) ++ [(k, v)]

/-- JS `Headers.prototype.get` (name lookup, case-insensitive). -/
def getHeader (hs : List (String × String)) (k : String) : Option String :=
  (hs.find? (fun kv => lowerName kv.1 == lowerName k)).map Prod.snd

/-- `corsHeaders()` from the worker source: the fixed four-header CORS set,
in the object's insertion order. -/
def corsHeaders : List (String × String) :=
  [("Access-Control-Allow-Origin", "*"),
   ("Access-Control-Allow-Methods", "GET, POST, PUT, DELETE, OPTIONS"),
   ("Access-Control-Allow-Headers", "Content-Type, Authorization"),
   ("Access-Control-Max-Age", "86400")]

/-- The `allowedHeaders` array inside `filterHeaders`. -/
def allowedHeaders : List String :=
  ["content-type", "accept", "accept-language", "content-length"]

/-- `filterHeaders(headers)` from the worker source: iterate over the inbound
headers and `set` each one whose lowercased name is in `allowedHeaders` on a
fresh `Headers` object. -/
def filterHeaders (headers : List (String × String)) :
    List (String × String) :=
  headers.foldl
    (fun filtered kv =>
      if allowedHeaders.contains (lowerName kv.1) then
        headersSet filtered kv.1 kv.2
      else filtered)
    []

/-- Inbound HTTP request: method, `url.pathname`, `url.search`, header set
and optional body stream. -/
structure HttpRequest where
  method : String
  pathname : String
  search : String
  headers : List (String × String)
  body : Option String
deriving DecidableEq

/-- An HTTP response (also the shape of an upstream `fetch` result). -/
structure HttpResponse where
  status : Nat
  statusText : String
  headers : List (String × String)
  body : Option String
deriving DecidableEq

/-- The outbound request built for the upstream `fetch` call. -/
structure OutboundRequest where
  url : String
  method : String
  headers : List (String × String)
  body : Option String
deriving DecidableEq

/-- The worker environment: the single optional binding `env.ALLOWED_TOKENS`.
`none` models an absent binding; JS truthiness makes `some ""` behave like
absence. -/
structure Env where
  ALLOWED_TOKENS : Option String
deriving DecidableEq

/-- One character of `JSON.stringify` string escaping. -/
def jsonEscapeChar (c : Char) : List Char :=
  if c = '"' then ['\\', '"']
  else if c = '\\' then ['\\', '\\']
  else if c = '\n' then ['\\', 'n']
  else if c = '\r' then ['\\', 'r']
  else if c = '\t' then ['\\', 't']
  else if c = '\x08' then ['\\', 'b']
  else if c = '\x0c' then ['\\', 'f']
  else if c.toNat < 32 then
    ['\\', 'u', '0', '0',
     (Nat.digitChar (c.toNat / 16)), (Nat.digitChar (c.toNat % 16))]
  else [c]

/-- `JSON.stringify` escaping of a whole string. -/
def jsonEscape (s : String) : String := ⟨(s.data.map jsonEscapeChar).flatten⟩

/-- The health-check body, exactly as `JSON.stringify` serialises it. -/
def healthBody : String :=
  "\x7b\"status\":\"ok\",\"service\":\"telegram-api-proxy\",\"usage\":\"Replace api.telegram.org with this worker URL\"\x7d"

/-- The invalid-path body, exactly as `JSON.stringify` serialises it. -/
def pathInvalidBody : String :=
  "\x7b\"error\":\"Invalid path. Expected /bot<token>/<method>\",\"example\":\"/botYOUR_TOKEN/sendMessage\"\x7d"

/-- The forbidden-token body, exactly as `JSON.stringify` serialises it. -/
def forbiddenBody : String :=
  "\x7b\"error\":\"Token not in allowlist\"\x7d"

/-- The 502 body: fixed error label plus the caught error's message. -/
def proxyFailureBody (msg : String) : String :=
  "\x7b\"error\":\"Failed to proxy request to Telegram\",\"message\":\""
    ++ jsonEscape msg ++ "\"\x7d"

/-- Headers of the JSON responses the handler builds itself:
`{'Content-Type': 'application/json', ...corsHeaders()}` (spread order). -/
def jsonCorsHeaders : List (String × String) :=
  ("Content-Type", "application/json") :: corsHeaders

/-- `new Response(null, {headers: corsHeaders()})`: the preflight response
(status defaults to 200, empty status text, no body). -/
def preflightResponse : HttpResponse :=
  { status := 200, statusText := "", headers := corsHeaders, body := none }

/-- The health-check response (status defaults to 200). -/
def healthResponse : HttpResponse :=
  { status := 200, statusText := "", headers := jsonCorsHeaders,
    body := some healthBody }

/-- The 400 invalid-path response. -/
def pathInvalidResponse : HttpResponse :=
  { status := 400, statusText := "", headers := jsonCorsHeaders,
    body := some pathInvalidBody }

/-- The 403 forbidden-token response. -/
def forbiddenResponse : HttpResponse :=
  { status := 403, statusText := "", headers := jsonCorsHeaders,
    body := some forbiddenBody }

/-- The 502 response produced in the `catch` block. -/
def proxyFailureResponse (msg : String) : HttpResponse :=
  { status := 502, statusText := "", headers := jsonCorsHeaders,
    body := some (proxyFailureBody msg) }

/-- Relay of a successful upstream response: same status, status text and
body; headers are the upstream headers with every CORS header `set`
(overwriting any upstream header of the same name). -/
def relayResponse (resp : HttpResponse) : HttpResponse :=
  { status := resp.status, statusText := resp.statusText,
    headers := corsHeaders.foldl (fun hs kv => headersSet hs kv.1 kv.2)
      resp.headers,
    body := resp.body }

/-- The fixed upstream origin. -/
def telegramBase : String := "https://api.telegram.org"

/-- The outbound request of the dispatch step: fixed origin plus original
path and query, same method, filtered headers, body only for methods that
carry one (`method !== 'GET' && method !== 'HEAD'`). -/
def buildOutbound (req : HttpRequest) : OutboundRequest :=
  { url := telegramBase ++ req.pathname ++ req.search
  , method := req.method
  , headers := filterHeaders req.headers
  , body := if req.method != "GET" && req.method != "HEAD" then req.body
            else none }

/-- The `try/catch` dispatch step: execute the single upstream `fetch`; on
success relay the response with CORS headers set, on failure produce the 502
response.  The second component records the upstream calls made. -/
def dispatch (upstream : OutboundRequest → Except String HttpResponse)
    (req : HttpRequest) : HttpResponse × List OutboundRequest :=
  match upstream (buildOutbound req) with
  | .ok resp => (relayResponse resp, [buildOutbound req])
  | .error msg => (proxyFailureResponse msg, [buildOutbound req])

/-- `handleRequest(request, env)`: the ordered pipeline of the worker.
Checks appear in the source's order: OPTIONS preflight, health path,
`/bot` prefix validation, optional allowlist, upstream dispatch. -/
def handleRequest (upstream : OutboundRequest → Except String HttpResponse)
    (req : HttpRequest) (env : Env) : HttpResponse × List OutboundRequest :=
  if req.method = "OPTIONS" then
    (preflightResponse, [])
  else if req.pathname = "/" ∨ req.pathname = "/health" then
    (healthResponse, [])
  else if strStartsWith req.pathname "/bot" = false then
    (pathInvalidResponse, [])
  else
    match env.ALLOWED_TOKENS with
    | some s =>
      if s.data.isEmpty then dispatch upstream req
      else
        match tokenMatch req.pathname with
        | some token =>
          if (allowedTokens s).contains token then dispatch upstream req
          else (forbiddenResponse, [])
        | none => dispatch upstream req
    | none => dispatch upstream req

/-- The guard chain under which `handleRequest` reaches the dispatch step. -/
def routesToDispatch (req : HttpRequest) (env : Env) : Bool :=
  req.method != "OPTIONS" && req.pathname != "/" &&
    req.pathname != "/health" && strStartsWith req.pathname "/bot" &&
    (match env.ALLOWED_TOKENS with
     | none => true
     | some s =>
       s.data.isEmpty ||
         (match tokenMatch req.pathname with
          | none => true
          | some token => (allowedTokens s).contains token))

/-- The lowercased names of the four CORS headers. -/
def corsNames : List String :=
  ["access-control-allow-origin", "access-control-allow-methods",
   "access-control-allow-headers", "access-control-max-age"]

/-! ## Helper lemmas -/

theorem handle_preflight_eq
    (upstream : OutboundRequest → Except String HttpResponse)
    (req : HttpRequest) (env : Env) (h : req.method = "OPTIONS") :
    handleRequest upstream req env = (preflightResponse, []) := by
  simp [handleRequest, h]

theorem handle_health_eq
    (upstream : OutboundRequest → Except String HttpResponse)
    (req : HttpRequest) (env : Env) (h1 : req.method ≠ "OPTIONS")
    (h2 : req.pathname = "/" ∨ req.pathname = "/health") :
    handleRequest upstream req env = (healthResponse, []) := by
  simp [handleRequest, h1, h2]

theorem handle_pathInvalid_eq
    (upstream : OutboundRequest → Except String HttpResponse)
    (req : HttpRequest) (env : Env) (h1 : req.method ≠ "OPTIONS")
    (h2 : req.pathname ≠ "/") (h3 : req.pathname ≠ "/health")
    (h4 : strStartsWith req.pathname "/bot" = false) :
    handleRequest upstream req env = (pathInvalidResponse, []) := by
  simp [handleRequest, h1, h2, h3, h4]

theorem startsWith_bot_ne_health (p : String)
    (h : strStartsWith p "/bot" = true) : p ≠ "/" ∧ p ≠ "/health" := by
  constructor <;> rintro rfl <;> exact absurd h (by decide)

theorem handle_dispatch_of_routes
    (upstream : OutboundRequest → Except String HttpResponse)
    (req : HttpRequest) (env : Env) (h : routesToDispatch req env = true) :
    handleRequest upstream req env = dispatch upstream req := by
  unfold routesToDispatch at h
  simp only [Bool.and_eq_true, bne_iff_ne, ne_eq] at h
  obtain ⟨⟨⟨⟨hm, hp1⟩, hp2⟩, hs⟩, ha⟩ := h
  unfold handleRequest
  rw [if_neg hm, if_neg (by simp [hp1, hp2]), if_neg (by simp [hs])]
  cases henv : env.ALLOWED_TOKENS with
  | none => rfl
  | some s =>
    rw [henv] at ha
    simp only [Bool.or_eq_true] at ha
    dsimp only
    by_cases he : s.data.isEmpty = true
    · rw [if_pos he]
    · rw [if_neg he]
      cases htok : tokenMatch req.pathname with
      | none => rfl
      | some token =>
        rcases ha with ha | ha
        · exact absurd ha he
        · rw [htok] at ha
          dsimp only
          rw [if_pos ha]

-- Sanity checks on concrete inputs (mirroring the worker's documented use).
example : tokenMatch "/botABC:def/sendMessage" = some "ABC:def" := by decide
example : tokenMatch "/bot/sendMessage" = none := by decide
example : tokenMatch "/bot" = none := by decide
example : allowedTokens "T1, T2" = ["T1", "T2"] := by decide
example : allowedTokens "" = [""] := by decide
example :
    filterHeaders [("Content-Type", "application/json"), ("X-Foo", "bar")]
      = [("Content-Type", "application/json")] := by decide
example :
    handleRequest (fun _ => .error "boom")
      ⟨"GET", "/health", "", [], none⟩ ⟨none⟩ = (healthResponse, []) := by
  decide

/-! ## Claims -/

/-- C1: the handler's checks run in the fixed source order and the first
matching check wins: every OPTIONS request — whatever its path, and whatever
allowlist is configured — gets the preflight outcome, and every non-OPTIONS
request whose path is neither `/` nor `/health` and does not start with
`/bot` gets the 400 outcome with no upstream contact, even when a non-empty
allowlist is configured that would also reject it. -/
theorem c1_ordered_first_match :
    (∀ (upstream : OutboundRequest → Except String HttpResponse)
       (req : HttpRequest) (env : Env), req.method = "OPTIONS" →
       handleRequest upstream req env = (preflightResponse, [])) ∧
    (∀ (upstream : OutboundRequest → Except String HttpResponse)
       (req : HttpRequest) (env : Env), req.method ≠ "OPTIONS" →
       req.pathname ≠ "/" → req.pathname ≠ "/health" →
       strStartsWith req.pathname "/bot" = false →
       handleRequest upstream req env = (pathInvalidResponse, [])) :=
  ⟨fun upstream req env h => handle_preflight_eq upstream req env h,
   fun upstream req env h1 h2 h3 h4 =>
     handle_pathInvalid_eq upstream req env h1 h2 h3 h4⟩

/-- Witness for C1: an OPTIONS request to an invalid path under a non-empty
allowlist is answered by preflight, and a GET to the same path is answered
400 although the allowlist would also reject it. -/
theorem c1_ordered_first_match_wit :
    handleRequest (fun _ => Except.ok ⟨200, "OK", [], none⟩)
        ⟨"OPTIONS", "/nope", "", [], none⟩ ⟨some "T1"⟩
      = (preflightResponse, []) ∧
    handleRequest (fun _ => Except.ok ⟨200, "OK", [], none⟩)
        ⟨"GET", "/nope", "", [], none⟩ ⟨some "T1"⟩
      = (pathInvalidResponse, []) :=
  ⟨c1_ordered_first_match.1 _ _ _ rfl,
   c1_ordered_first_match.2 _ _ _ (by decide) (by decide) (by decide)
     (by decide)⟩

/-- C7: every non-OPTIONS request whose path does not start with `/bot` and
is neither `/` nor `/health` is answered with status 400, the exact
invalid-path JSON body, and no upstream contact. -/
theorem c7_path_invalid :
    ∀ (upstream : OutboundRequest → Except String HttpResponse)
      (req : HttpRequest) (env : Env), req.method ≠ "OPTIONS" →
      req.pathname ≠ "/" → req.pathname ≠ "/health" →
      strStartsWith req.pathname "/bot" = false →
      handleRequest upstream req env =
        ({ status := 400, statusText := "", headers := jsonCorsHeaders,
           body := some pathInvalidBody }, []) :=
  fun upstream req env h1 h2 h3 h4 =>
    handle_pathInvalid_eq upstream req env h1 h2 h3 h4

/-- Witness for C7 at the concrete path `/telegram`. -/
theorem c7_path_invalid_wit :
    handleRequest (fun _ => Except.error "boom")
        ⟨"POST", "/telegram", "", [("X-Foo", "bar")], some "b"⟩ ⟨none⟩
      = ({ status := 400, statusText := "", headers := jsonCorsHeaders,
           body := some pathInvalidBody }, []) :=
  c7_path_invalid _ _ _ (by decide) (by decide) (by decide) (by decide)

/-- C8: every OPTIONS request, whatever its path, is answered with a null
body, exactly the four CORS headers and nothing else, and no upstream
contact. -/
theorem c8_preflight :
    ∀ (upstream : OutboundRequest → Except String HttpResponse)
      (req : HttpRequest) (env : Env), req.method = "OPTIONS" →
      handleRequest upstream req env =
        ({ status := 200, statusText := "", headers := corsHeaders,
           body := none }, []) :=
  fun upstream req env h => handle_preflight_eq upstream req env h

/-- Witness for C8 at the concrete path `/` with an allowlist configured. -/
theorem c8_preflight_wit :
    handleRequest (fun _ => Except.error "boom")
        ⟨"OPTIONS", "/", "", [("Origin", "https://x.example")], none⟩
        ⟨some "T1,T2"⟩
      = ({ status := 200, statusText := "", headers := corsHeaders,
           body := none }, []) :=
  c8_preflight _ _ _ rfl

/-- C9: every non-OPTIONS request to `/` or `/health` is answered with
status 200, the exact health JSON body, headers that carry all four CORS
headers, and no upstream contact. -/
theorem c9_health :
    ∀ (upstream : OutboundRequest → Except String HttpResponse)
      (req : HttpRequest) (env : Env), req.method ≠ "OPTIONS" →
      (req.pathname = "/" ∨ req.pathname = "/health") →
      handleRequest upstream req env = (healthResponse, []) ∧
      healthResponse.status = 200 ∧
      healthResponse.body = some healthBody ∧
      (∀ k v, (k, v) ∈ corsHeaders →
        getHeader healthResponse.headers k = some v) :=
  fun upstream req env h1 h2 =>
    ⟨handle_health_eq upstream req env h1 h2, rfl, rfl, by
      intro k v hkv
      simp only [corsHeaders, List.mem_cons, List.not_mem_nil, or_false,
        Prod.mk.injEq] at hkv
      rcases hkv with ⟨rfl, rfl⟩ | ⟨rfl, rfl⟩ | ⟨rfl, rfl⟩ | ⟨rfl, rfl⟩ <;>
        decide⟩

/-- Witness for C9 at the concrete path `/health`. -/
theorem c9_health_wit :
    handleRequest (fun _ => Except.error "boom")
        ⟨"GET", "/health", "", [], none⟩ ⟨some "T1"⟩ = (healthResponse, []) :=
  (c9_health _ _ _ (by decide) (Or.inr rfl)).1

/-! ## More helper lemmas: dispatch and the allowlist branch -/

theorem dispatch_snd (upstream : OutboundRequest → Except String HttpResponse)
    (req : HttpRequest) :
    (dispatch upstream req).2 = [buildOutbound req] := by
  unfold dispatch
  cases upstream (buildOutbound req) <;> rfl

theorem dispatch_cases (upstream : OutboundRequest → Except String HttpResponse)
    (req : HttpRequest) :
    (∃ msg, upstream (buildOutbound req) = Except.error msg ∧
       dispatch upstream req = (proxyFailureResponse msg, [buildOutbound req])) ∨
    (∃ resp, upstream (buildOutbound req) = Except.ok resp ∧
       dispatch upstream req = (relayResponse resp, [buildOutbound req])) := by
  unfold dispatch
  cases h : upstream (buildOutbound req) with
  | error msg => exact Or.inl ⟨msg, rfl, rfl⟩
  | ok resp => exact Or.inr ⟨resp, rfl, rfl⟩

theorem tokenMatch_some_startsWith (p token : String)
    (h : tokenMatch p = some token) : strStartsWith p "/bot" = true := by
  unfold tokenMatch at h
  by_cases hs : strStartsWith p "/bot" = true
  · exact hs
  · rw [if_neg hs] at h
    cases h

theorem isEmpty_true_eq_nil {α : Type} {l : List α} (h : l.isEmpty = true) :
    l = [] := by
  cases l with
  | nil => rfl
  | cons a t => simp [List.isEmpty] at h

theorem handle_unfold_allowlist
    (upstream : OutboundRequest → Except String HttpResponse)
    (req : HttpRequest) (env : Env) (h1 : req.method ≠ "OPTIONS")
    (hs : strStartsWith req.pathname "/bot" = true) :
    handleRequest upstream req env =
      (match env.ALLOWED_TOKENS with
       | some s =>
         if s.data.isEmpty then dispatch upstream req
         else
           match tokenMatch req.pathname with
           | some token =>
             if (allowedTokens s).contains token then dispatch upstream req
             else (forbiddenResponse, [])
           | none => dispatch upstream req
       | none => dispatch upstream req) := by
  obtain ⟨h2, h3⟩ := startsWith_bot_ne_health _ hs
  unfold handleRequest
  rw [if_neg h1, if_neg (by simp [h2, h3]), if_neg (by simp [hs])]

/-- C2 counterexample: as stated the claim quantifies over every request
whose path carries a non-empty `/bot` token.  An OPTIONS request to
`/botT3/sendMessage` under the allowlist `T1,T2` is answered by the
preflight outcome, not 403, although its token is not allowlisted — so the
stated "403 iff token not allowlisted" equivalence fails at this input. -/
theorem c2_counterexample :
    ¬ (handleRequest (fun _ => Except.error "boom")
         ⟨"OPTIONS", "/botT3/sendMessage", "", [], none⟩ ⟨some "T1,T2"⟩
           = (forbiddenResponse, []) ↔
       (allowedTokens "T1,T2").contains "T3" = false) := by
  decide

/-- C2 (amended to non-OPTIONS requests): for every non-OPTIONS request
whose path starts with `/bot` followed by a non-empty token segment, under a
non-empty allowlist configuration the handler produces the 403
forbidden-token response (with no upstream contact) iff the extracted token
equals no whitespace-trimmed configured entry; under an empty or absent
configuration the allowlist check never fires and the request proceeds to
upstream dispatch. -/
theorem c2_allowlist :
    (∀ (upstream : OutboundRequest → Except String HttpResponse)
       (req : HttpRequest) (s token : String),
       req.method ≠ "OPTIONS" → s ≠ "" →
       tokenMatch req.pathname = some token →
       (handleRequest upstream req ⟨some s⟩ = (forbiddenResponse, []) ↔
         (allowedTokens s).contains token = false)) ∧
    (∀ (upstream : OutboundRequest → Except String HttpResponse)
       (req : HttpRequest) (token : String), req.method ≠ "OPTIONS" →
       tokenMatch req.pathname = some token →
       handleRequest upstream req ⟨none⟩ = dispatch upstream req ∧
       handleRequest upstream req ⟨some ""⟩ = dispatch upstream req) := by
  constructor
  · intro upstream req s token h1 hs0 htok
    have hsw := tokenMatch_some_startsWith _ _ htok
    rw [handle_unfold_allowlist upstream req ⟨some s⟩ h1 hsw]
    dsimp only
    rw [if_neg (fun hc => hs0 (String.ext (isEmpty_true_eq_nil hc))), htok]
    dsimp only
    by_cases hc : (allowedTokens s).contains token = true
    · rw [if_pos hc]
      refine iff_of_false ?_ (by simpa using hc)
      intro hd
      have h2 := congrArg Prod.snd hd
      rw [dispatch_snd] at h2
      simp at h2
    · rw [if_neg hc]
      exact iff_of_true rfl (by simpa using hc)
  · intro upstream req token h1 htok
    have hsw := tokenMatch_some_startsWith _ _ htok
    exact ⟨handle_unfold_allowlist upstream req ⟨none⟩ h1 hsw,
           handle_unfold_allowlist upstream req ⟨some ""⟩ h1 hsw⟩

/-- Witness for the amended C2: under allowlist `T1, T2`, a POST to
`/botT3/sendMessage` is answered 403 and a POST to `/botT1/sendMessage`
with no configuration proceeds to dispatch. -/
theorem c2_allowlist_wit :
    handleRequest (fun _ => Except.error "boom")
        ⟨"POST", "/botT3/sendMessage", "", [], some "b"⟩ ⟨some "T1, T2"⟩
      = (forbiddenResponse, []) ∧
    handleRequest (fun _ => Except.error "boom")
        ⟨"POST", "/botT1/sendMessage", "", [], some "b"⟩ ⟨none⟩
      = dispatch (fun _ => Except.error "boom")
          ⟨"POST", "/botT1/sendMessage", "", [], some "b"⟩ :=
  ⟨(c2_allowlist.1 (fun _ => Except.error "boom")
      ⟨"POST", "/botT3/sendMessage", "", [], some "b"⟩ "T1, T2" "T3"
      (by decide) (by decide) (by decide)).mpr (by decide),
   (c2_allowlist.2 (fun _ => Except.error "boom")
      ⟨"POST", "/botT1/sendMessage", "", [], some "b"⟩ "T1"
      (by decide) (by decide)).1⟩

/-- C3: a non-OPTIONS request whose path starts with `/bot` but whose token
segment is empty (nothing, or a `/`, follows `/bot`) fails the
token-extraction pattern, skips the allowlist check whatever the
configuration, and proceeds to upstream dispatch instead of being answered
400 or 403. -/
theorem c3_empty_token :
    ∀ (upstream : OutboundRequest → Except String HttpResponse)
      (req : HttpRequest) (env : Env), req.method ≠ "OPTIONS" →
      strStartsWith req.pathname "/bot" = true →
      ((req.pathname.data.drop 4).takeWhile (fun c => c ≠ '/')).isEmpty
          = true →
      tokenMatch req.pathname = none ∧
      handleRequest upstream req env = dispatch upstream req := by
  intro upstream req env h1 hs hseg
  have htok : tokenMatch req.pathname = none := by
    unfold tokenMatch
    rw [if_pos hs]
    simp only [hseg]
    rfl
  refine ⟨htok, ?_⟩
  rw [handle_unfold_allowlist upstream req env h1 hs]
  cases env.ALLOWED_TOKENS with
  | none => rfl
  | some s =>
    dsimp only
    by_cases he : s.data.isEmpty = true
    · rw [if_pos he]
    · rw [if_neg he, htok]

/-- Witness for C3 at the concrete path `/bot/sendMessage` under a
non-empty allowlist. -/
theorem c3_empty_token_wit :
    tokenMatch "/bot/sendMessage" = none ∧
    handleRequest (fun _ => Except.ok ⟨200, "OK", [], none⟩)
        ⟨"POST", "/bot/sendMessage", "", [], some "b"⟩ ⟨some "T1"⟩
      = dispatch (fun _ => Except.ok ⟨200, "OK", [], none⟩)
          ⟨"POST", "/bot/sendMessage", "", [], some "b"⟩ :=
  c3_empty_token (fun _ => Except.ok ⟨200, "OK", [], none⟩)
    ⟨"POST", "/bot/sendMessage", "", [], some "b"⟩ ⟨some "T1"⟩
    (by decide) (by decide) (by decide)

/-- C6: for every request that reaches upstream dispatch, when the upstream
call raises with message `msg` the handler answers status 502 with the fixed
error label and that message in the JSON body, and the upstream is called
exactly once (the failure is not retried). -/
theorem c6_upstream_failure :
    ∀ (upstream : OutboundRequest → Except String HttpResponse)
      (req : HttpRequest) (env : Env) (msg : String),
      routesToDispatch req env = true →
      upstream (buildOutbound req) = Except.error msg →
      handleRequest upstream req env =
        ({ status := 502, statusText := "", headers := jsonCorsHeaders,
           body := some (proxyFailureBody msg) }, [buildOutbound req]) := by
  intro upstream req env msg h herr
  rw [handle_dispatch_of_routes _ _ _ h]
  unfold dispatch
  rw [herr]
  rfl

/-- Witness for C6: a POST to `/botT1/sendMessage` against an upstream that
raises `Network error`. -/
theorem c6_upstream_failure_wit :
    handleRequest (fun _ => Except.error "Network error")
        ⟨"POST", "/botT1/sendMessage", "?x=1",
         [("Content-Type", "application/json")], some "b"⟩ ⟨some "T1,T2"⟩
      = ({ status := 502, statusText := "", headers := jsonCorsHeaders,
           body := some (proxyFailureBody "Network error") },
         [buildOutbound ⟨"POST", "/botT1/sendMessage", "?x=1",
           [("Content-Type", "application/json")], some "b"⟩]) :=
  c6_upstream_failure (fun _ => Except.error "Network error")
    ⟨"POST", "/botT1/sendMessage", "?x=1",
     [("Content-Type", "application/json")], some "b"⟩ ⟨some "T1,T2"⟩
    "Network error" (by decide) rfl

theorem handle_outcomes :
    ∀ (upstream : OutboundRequest → Except String HttpResponse)
      (req : HttpRequest) (env : Env),
      handleRequest upstream req env = (preflightResponse, []) ∨
      handleRequest upstream req env = (healthResponse, []) ∨
      handleRequest upstream req env = (pathInvalidResponse, []) ∨
      handleRequest upstream req env = (forbiddenResponse, []) ∨
      (∃ msg, upstream (buildOutbound req) = Except.error msg ∧
        handleRequest upstream req env
          = (proxyFailureResponse msg, [buildOutbound req])) ∨
      (∃ resp, upstream (buildOutbound req) = Except.ok resp ∧
        handleRequest upstream req env
          = (relayResponse resp, [buildOutbound req])) := by
  intro upstream req env
  have hdisp :
      handleRequest upstream req env = dispatch upstream req →
      (∃ msg, upstream (buildOutbound req) = Except.error msg ∧
        handleRequest upstream req env
          = (proxyFailureResponse msg, [buildOutbound req])) ∨
      (∃ resp, upstream (buildOutbound req) = Except.ok resp ∧
        handleRequest upstream req env
          = (relayResponse resp, [buildOutbound req])) := by
    intro he
    rcases dispatch_cases upstream req with ⟨msg, hm, hd⟩ | ⟨resp, hm, hd⟩
    · exact Or.inl ⟨msg, hm, he.trans hd⟩
    · exact Or.inr ⟨resp, hm, he.trans hd⟩
  by_cases h1 : req.method = "OPTIONS"
  · exact Or.inl (handle_preflight_eq upstream req env h1)
  by_cases h2 : req.pathname = "/" ∨ req.pathname = "/health"
  · exact Or.inr (Or.inl (handle_health_eq upstream req env h1 h2))
  push_neg at h2
  by_cases h3 : strStartsWith req.pathname "/bot" = true
  · have hun := handle_unfold_allowlist upstream req env h1 h3
    cases henv : env.ALLOWED_TOKENS with
    | none =>
      have hd : handleRequest upstream req env = dispatch upstream req := by
        rw [hun, henv]
      rcases hdisp hd with h | h
      · exact Or.inr (Or.inr (Or.inr (Or.inr (Or.inl h))))
      · exact Or.inr (Or.inr (Or.inr (Or.inr (Or.inr h))))
    | some s =>
      by_cases he : s.data.isEmpty = true
      · have hd : handleRequest upstream req env = dispatch upstream req := by
          rw [hun, henv]
          dsimp only
          rw [if_pos he]
        rcases hdisp hd with h | h
        · exact Or.inr (Or.inr (Or.inr (Or.inr (Or.inl h))))
        · exact Or.inr (Or.inr (Or.inr (Or.inr (Or.inr h))))
      · cases htok : tokenMatch req.pathname with
        | none =>
          have hd : handleRequest upstream req env = dispatch upstream req := by
            rw [hun, henv]
            dsimp only
            rw [if_neg he, htok]
          rcases hdisp hd with h | h
          · exact Or.inr (Or.inr (Or.inr (Or.inr (Or.inl h))))
          · exact Or.inr (Or.inr (Or.inr (Or.inr (Or.inr h))))
        | some token =>
          by_cases hc : (allowedTokens s).contains token = true
          · have hd : handleRequest upstream req env = dispatch upstream req := by
              rw [hun, henv]
              dsimp only
              rw [if_neg he, htok]
              dsimp only
              rw [if_pos hc]
            rcases hdisp hd with h | h
            · exact Or.inr (Or.inr (Or.inr (Or.inr (Or.inl h))))
            · exact Or.inr (Or.inr (Or.inr (Or.inr (Or.inr h))))
          · have hf : handleRequest upstream req env = (forbiddenResponse, []) := by
              rw [hun, henv]
              dsimp only
              rw [if_neg he, htok]
              dsimp only
              rw [if_neg hc]
            exact Or.inr (Or.inr (Or.inr (Or.inl hf)))
  · exact Or.inr (Or.inr (Or.inl (handle_pathInvalid_eq upstream req env
      h1 h2.1 h2.2 (by simpa using h3))))

/-! ## Header-filtering lemmas -/

theorem headersSet_append (acc : List (String × String)) (k v : String)
    (h : ∀ b ∈ acc, lowerName b.1 ≠ lowerName k) :
    headersSet acc k v = acc ++ [(k, v)] := by
  unfold headersSet
  congr 1
  apply List.filter_eq_self.mpr
  intro a ha
  simpa using h a ha

theorem filterHeaders_foldl_eq (hs : List (String × String))
    (acc : List (String × String))
    (hdisj : ∀ a ∈ hs, ∀ b ∈ acc, lowerName a.1 ≠ lowerName b.1)
    (hnd : hs.Pairwise (fun a b => lowerName a.1 ≠ lowerName b.1)) :
    hs.foldl
      (fun filtered kv =>
        if allowedHeaders.contains (lowerName kv.1) then
          headersSet filtered kv.1 kv.2
        else filtered) acc
      = acc ++ hs.filter (fun kv => allowedHeaders.contains (lowerName kv.1)) := by
  induction hs generalizing acc with
  | nil => simp
  | cons kv tl ih =>
    obtain ⟨k, v⟩ := kv
    rcases List.pairwise_cons.mp hnd with ⟨hhead, htl⟩
    rw [List.foldl_cons]
    dsimp only
    by_cases hk : allowedHeaders.contains (lowerName k) = true
    · rw [if_pos hk,
        headersSet_append acc k v
          (fun b hb => (hdisj (k, v) (List.mem_cons_self _ _) b hb).symm),
        ih (acc ++ [(k, v)])
          (fun a ha b hb => by
            rcases List.mem_append.mp hb with hb | hb
            · exact hdisj a (List.mem_cons_of_mem _ ha) b hb
            · rcases List.mem_singleton.mp hb with rfl
              exact (hhead a ha).symm)
          htl]
      simp only [List.filter_cons]
      dsimp only
      rw [if_pos hk, List.append_assoc]
      rfl
    · rw [if_neg hk,
        ih acc (fun a ha b hb => hdisj a (List.mem_cons_of_mem _ ha) b hb) htl]
      simp only [List.filter_cons]
      dsimp only
      rw [if_neg hk]

theorem filterHeaders_eq_filter (hs : List (String × String))
    (hnd : hs.Pairwise (fun a b => lowerName a.1 ≠ lowerName b.1)) :
    filterHeaders hs
      = hs.filter (fun kv => allowedHeaders.contains (lowerName kv.1)) := by
  unfold filterHeaders
  simpa using filterHeaders_foldl_eq hs [] (by simp) hnd

/-- C4: for an inbound header set (whose names, as always for a JS `Headers`
object, are pairwise distinct up to case) the outbound request carries
exactly those inbound headers whose lowercased name is one of content-type,
accept, accept-language, content-length, with their original values; every
other inbound header is absent. -/
theorem c4_header_filtering :
    ∀ req : HttpRequest,
      req.headers.Pairwise (fun a b => lowerName a.1 ≠ lowerName b.1) →
      ∀ k v, (k, v) ∈ (buildOutbound req).headers ↔
        ((k, v) ∈ req.headers ∧
          allowedHeaders.contains (lowerName k) = true) := by
  intro req hnd k v
  show (k, v) ∈ filterHeaders req.headers ↔ _
  rw [filterHeaders_eq_filter _ hnd, List.mem_filter]

/-- Witness for C4: the content-type header is forwarded, the custom
`X-Foo` header is dropped. -/
theorem c4_header_filtering_wit :
    (("Content-Type", "application/json")
       ∈ (buildOutbound ⟨"POST", "/botT1/sendMessage", "",
            [("Content-Type", "application/json"), ("X-Foo", "bar")],
            some "b"⟩).headers) ∧
    (("X-Foo", "bar")
       ∉ (buildOutbound ⟨"POST", "/botT1/sendMessage", "",
            [("Content-Type", "application/json"), ("X-Foo", "bar")],
            some "b"⟩).headers) :=
  ⟨(c4_header_filtering ⟨"POST", "/botT1/sendMessage", "",
      [("Content-Type", "application/json"), ("X-Foo", "bar")], some "b"⟩
      (by decide) "Content-Type" "application/json").mpr
      ⟨by decide, by decide⟩,
   fun hm =>
     absurd ((c4_header_filtering ⟨"POST", "/botT1/sendMessage", "",
       [("Content-Type", "application/json"), ("X-Foo", "bar")], some "b"⟩
       (by decide) "X-Foo" "bar").mp hm).2 (by decide)⟩

/-! ## CORS relay lemmas -/

theorem getHeader_headersSet_same (hs : List (String × String))
    (k v k' : String) (h : lowerName k' = lowerName k) :
    getHeader (headersSet hs k v) k' = some v := by
  unfold getHeader headersSet
  rw [List.find?_append]
  have h1 : (hs.filter (fun kv => lowerName kv.1 != lowerName k)).find?
      (fun kv => lowerName kv.1 == lowerName k') = none := by
    apply List.find?_eq_none.mpr
    intro x hx
    rcases List.mem_filter.mp hx with ⟨_, hpx⟩
    simp only [bne_iff_ne, ne_eq] at hpx
    simp [h, hpx]
  rw [h1]
  simp [h]

theorem find?_filter_of_imp {α : Type} (l : List α) (p q : α → Bool)
    (h : ∀ x, p x = true → q x = true) :
    (l.filter q).find? p = l.find? p := by
  induction l with
  | nil => rfl
  | cons a tl ih =>
    by_cases hq : q a = true
    · rw [List.filter_cons_of_pos hq]
      by_cases hp : p a = true
      · rw [List.find?_cons_of_pos _ hp, List.find?_cons_of_pos _ hp]
      · rw [List.find?_cons_of_neg _ (by simp [hp]),
          List.find?_cons_of_neg _ (by simp [hp]), ih]
    · rw [List.filter_cons_of_neg (by simp [hq]), ih,
        List.find?_cons_of_neg _ (fun hp => hq (h a hp))]

theorem getHeader_headersSet_other (hs : List (String × String))
    (k v k' : String) (h : lowerName k' ≠ lowerName k) :
    getHeader (headersSet hs k v) k' = getHeader hs k' := by
  unfold getHeader headersSet
  rw [List.find?_append,
    find?_filter_of_imp hs (fun kv => lowerName kv.1 == lowerName k')
      (fun kv => lowerName kv.1 != lowerName k)
      (fun x hx => by
        simp only [beq_iff_eq] at hx
        simp [hx, h]),
    show ([((k, v) : String × String)].find?
        (fun kv => lowerName kv.1 == lowerName k')) = none from by
      simp [Ne.symm h]]
  cases hs.find? (fun kv => lowerName kv.1 == lowerName k') <;> rfl

theorem getHeader_setAllCors (hs : List (String × String)) (k v : String)
    (hkv : (k, v) ∈ corsHeaders) :
    getHeader (corsHeaders.foldl (fun a kv => headersSet a kv.1 kv.2) hs) k
      = some v := by
  have hfold : corsHeaders.foldl (fun a kv => headersSet a kv.1 kv.2) hs
      = headersSet (headersSet (headersSet (headersSet hs
          "Access-Control-Allow-Origin" "*")
          "Access-Control-Allow-Methods" "GET, POST, PUT, DELETE, OPTIONS")
          "Access-Control-Allow-Headers" "Content-Type, Authorization")
          "Access-Control-Max-Age" "86400" := rfl
  rw [hfold]
  simp only [corsHeaders, List.mem_cons, List.not_mem_nil, or_false,
    Prod.mk.injEq] at hkv
  rcases hkv with ⟨rfl, rfl⟩ | ⟨rfl, rfl⟩ | ⟨rfl, rfl⟩ | ⟨rfl, rfl⟩
  · rw [getHeader_headersSet_other _ _ _ _ (by decide),
      getHeader_headersSet_other _ _ _ _ (by decide),
      getHeader_headersSet_other _ _ _ _ (by decide),
      getHeader_headersSet_same _ _ _ _ (by decide)]
  · rw [getHeader_headersSet_other _ _ _ _ (by decide),
      getHeader_headersSet_other _ _ _ _ (by decide),
      getHeader_headersSet_same _ _ _ _ (by decide)]
  · rw [getHeader_headersSet_other _ _ _ _ (by decide),
      getHeader_headersSet_same _ _ _ _ (by decide)]
  · rw [getHeader_headersSet_same _ _ _ _ (by decide)]

theorem getHeader_setAllCors_other (hs : List (String × String)) (k : String)
    (h : corsNames.contains (lowerName k) = false) :
    getHeader (corsHeaders.foldl (fun a kv => headersSet a kv.1 kv.2) hs) k
      = getHeader hs k := by
  have hfold : corsHeaders.foldl (fun a kv => headersSet a kv.1 kv.2) hs
      = headersSet (headersSet (headersSet (headersSet hs
          "Access-Control-Allow-Origin" "*")
          "Access-Control-Allow-Methods" "GET, POST, PUT, DELETE, OPTIONS")
          "Access-Control-Allow-Headers" "Content-Type, Authorization")
          "Access-Control-Max-Age" "86400" := rfl
  have h' : lowerName k ∉ corsNames := by simpa using h
  simp only [corsNames, List.mem_cons, List.not_mem_nil, or_false,
    not_or] at h'
  obtain ⟨h1, h2, h3, h4⟩ := h'
  rw [hfold,
    getHeader_headersSet_other _ _ _ _
      (show lowerName k ≠ "access-control-max-age" from h4),
    getHeader_headersSet_other _ _ _ _
      (show lowerName k ≠ "access-control-allow-headers" from h3),
    getHeader_headersSet_other _ _ _ _
      (show lowerName k ≠ "access-control-allow-methods" from h2),
    getHeader_headersSet_other _ _ _ _
      (show lowerName k ≠ "access-control-allow-origin" from h1)]

theorem getHeader_cors_concrete (k v : String) (hkv : (k, v) ∈ corsHeaders) :
    getHeader corsHeaders k = some v ∧ getHeader jsonCorsHeaders k = some v := by
  simp only [corsHeaders, List.mem_cons, List.not_mem_nil, or_false,
    Prod.mk.injEq] at hkv
  rcases hkv with ⟨rfl, rfl⟩ | ⟨rfl, rfl⟩ | ⟨rfl, rfl⟩ | ⟨rfl, rfl⟩ <;>
    exact ⟨by decide, by decide⟩

/-- C10: the handler is total — for every upstream behaviour (the only
fallible operation), request and configuration it produces exactly one of
the six terminal outcomes: preflight, health, invalid-path 400, forbidden
403, upstream-failure 502, or verbatim relay of a successful upstream
response; it never propagates a failure. -/
theorem c10_totality :
    ∀ (upstream : OutboundRequest → Except String HttpResponse)
      (req : HttpRequest) (env : Env),
      handleRequest upstream req env = (preflightResponse, []) ∨
      handleRequest upstream req env = (healthResponse, []) ∨
      handleRequest upstream req env = (pathInvalidResponse, []) ∨
      handleRequest upstream req env = (forbiddenResponse, []) ∨
      (∃ msg, upstream (buildOutbound req) = Except.error msg ∧
        handleRequest upstream req env
          = (proxyFailureResponse msg, [buildOutbound req])) ∨
      (∃ resp, upstream (buildOutbound req) = Except.ok resp ∧
        handleRequest upstream req env
          = (relayResponse resp, [buildOutbound req])) :=
  handle_outcomes

/-- C5: relayed upstream responses keep the upstream status, status text and
body; their headers are the upstream headers with each of the four CORS
headers set (overwriting any upstream header of the same name, preserving
every header with a different name); and every response the handler
produces, on every outcome path, carries the identical four-header CORS
set. -/
theorem c5_cors_on_every_response :
    (∀ (upstream : OutboundRequest → Except String HttpResponse)
       (req : HttpRequest) (env : Env) (resp : HttpResponse),
       routesToDispatch req env = true →
       upstream (buildOutbound req) = Except.ok resp →
       handleRequest upstream req env
         = (relayResponse resp, [buildOutbound req]) ∧
       (relayResponse resp).status = resp.status ∧
       (relayResponse resp).statusText = resp.statusText ∧
       (relayResponse resp).body = resp.body ∧
       (∀ k v, (k, v) ∈ corsHeaders →
         getHeader (relayResponse resp).headers k = some v) ∧
       (∀ k, corsNames.contains (lowerName k) = false →
         getHeader (relayResponse resp).headers k = getHeader resp.headers k)) ∧
    (∀ (upstream : OutboundRequest → Except String HttpResponse)
       (req : HttpRequest) (env : Env) (k v : String),
       (k, v) ∈ corsHeaders →
       getHeader (handleRequest upstream req env).1.headers k = some v) := by
  constructor
  · intro upstream req env resp h hok
    refine ⟨?_, rfl, rfl, rfl,
      fun k v hkv => getHeader_setAllCors resp.headers k v hkv,
      fun k hk => getHeader_setAllCors_other resp.headers k hk⟩
    rw [handle_dispatch_of_routes _ _ _ h]
    unfold dispatch
    rw [hok]
  · intro upstream req env k v hkv
    rcases handle_outcomes upstream req env with
      h | h | h | h | ⟨msg, _, h⟩ | ⟨resp, _, h⟩ <;> rw [h]
    · exact (getHeader_cors_concrete k v hkv).1
    · exact (getHeader_cors_concrete k v hkv).2
    · exact (getHeader_cors_concrete k v hkv).2
    · exact (getHeader_cors_concrete k v hkv).2
    · exact (getHeader_cors_concrete k v hkv).2
    · exact getHeader_setAllCors resp.headers k v hkv

/-- Witness for C5: a relayed response overwrites an upstream-provided
allow-origin header with `*`, preserves the unrelated upstream header
`X-Up`, and a 502 response also carries the CORS max-age header. -/
theorem c5_cors_on_every_response_wit :
    handleRequest
        (fun _ => Except.ok ⟨200, "OK",
          [("Access-Control-Allow-Origin", "upstream"), ("X-Up", "1")],
          some "ok"⟩)
        ⟨"GET", "/botT1/getMe", "", [], none⟩ ⟨none⟩
      = (relayResponse ⟨200, "OK",
          [("Access-Control-Allow-Origin", "upstream"), ("X-Up", "1")],
          some "ok"⟩,
         [buildOutbound ⟨"GET", "/botT1/getMe", "", [], none⟩]) ∧
    getHeader (relayResponse ⟨200, "OK",
        [("Access-Control-Allow-Origin", "upstream"), ("X-Up", "1")],
        some "ok"⟩).headers "Access-Control-Allow-Origin" = some "*" ∧
    getHeader (relayResponse ⟨200, "OK",
        [("Access-Control-Allow-Origin", "upstream"), ("X-Up", "1")],
        some "ok"⟩).headers "X-Up" = some "1" ∧
    getHeader (handleRequest (fun _ => Except.error "boom")
        ⟨"GET", "/weird", "", [], none⟩ ⟨none⟩).1.headers
        "Access-Control-Max-Age" = some "86400" :=
  ⟨(c5_cors_on_every_response.1
      (fun _ => Except.ok ⟨200, "OK",
        [("Access-Control-Allow-Origin", "upstream"), ("X-Up", "1")],
        some "ok"⟩)
      ⟨"GET", "/botT1/getMe", "", [], none⟩ ⟨none⟩
      ⟨200, "OK",
        [("Access-Control-Allow-Origin", "upstream"), ("X-Up", "1")],
        some "ok"⟩ (by decide) rfl).1,
   (c5_cors_on_every_response.1
      (fun _ => Except.ok ⟨200, "OK",
        [("Access-Control-Allow-Origin", "upstream"), ("X-Up", "1")],
        some "ok"⟩)
      ⟨"GET", "/botT1/getMe", "", [], none⟩ ⟨none⟩
      ⟨200, "OK",
        [("Access-Control-Allow-Origin", "upstream"), ("X-Up", "1")],
        some "ok"⟩ (by decide) rfl).2.2.2.2.1
     "Access-Control-Allow-Origin" "*" (by decide),
   by
     rw [(c5_cors_on_every_response.1
       (fun _ => Except.ok ⟨200, "OK",
         [("Access-Control-Allow-Origin", "upstream"), ("X-Up", "1")],
         some "ok"⟩)
       ⟨"GET", "/botT1/getMe", "", [], none⟩ ⟨none⟩
       ⟨200, "OK",
         [("Access-Control-Allow-Origin", "upstream"), ("X-Up", "1")],
         some "ok"⟩ (by decide) rfl).2.2.2.2.2 "X-Up" (by decide)]
     decide,
   c5_cors_on_every_response.2 (fun _ => Except.error "boom")
     ⟨"GET", "/weird", "", [], none⟩ ⟨none⟩ "Access-Control-Max-Age" "86400"
     (by decide)⟩
